import Mathlib

/-!
Shallow embedding of the task-hierarchy / synchronization core of the
TODO-App-React client, together with theorems settling the frozen claims
about its specification.

The definitions translate, function by function, the TypeScript source:
the gateway (`src/app/_api/APIClient.ts`), the screen controllers
(`src/app/(tabs)/screens/TodoScreen.tsx`, `SubTaskScreen.tsx`, the legacy
single-file screen `src/app/(tabs)/index.tsx`), the task item component
(`TaskItem.tsx`), the task form (`TaskFormModal`), and the reset-password
screen.  JavaScript truthiness (`0`, `""`, `null`/`undefined` are falsy)
is modelled explicitly where the source relies on it.
-/

namespace TodoApp

/-- JS truthiness of an optional number: `undefined`/`null` and `0` are falsy. -/
def natTruthy : Option Nat → Bool
  | some n => n != 0
  | none => false

/-- JS `a || b` on strings: an empty string falls through to `b`. -/
def jsOrStr (a b : String) : String :=
  if a = "" then b else a

/-- JS `a || b` where `a` is an optional string (`undefined` and `""` are falsy). -/
def jsOrS : Option String → Option String → Option String
  | some s, b => if s = "" then b else some s
  | none,   b => b

/-- The three priority levels in string form (`low | medium | high`). -/
inductive PriorityStr
  | low
  | medium
  | high
deriving DecidableEq, Repr

/-- String form of a priority level, as the TS union type values. -/
def PriorityStr.str : PriorityStr → String
  | .low => "low"
  | .medium => "medium"
  | .high => "high"

/-- The `priorityMap = \x7b low: 1, medium: 2, high: 3 \x7d` used by
`APIClient.createTask` (string → numeric, applied before transmission). -/
def createPriorityMap : PriorityStr → Nat
  | .low => 1
  | .medium => 2
  | .high => 3

/-- The record lookup of `priorityMap` in `SubTaskScreen.handleSave`
(`\x7b 1: "low", 2: "medium", 3: "high" \x7d`); `undefined` for other keys. -/
def subScreenPriorityLookup : Nat → Option PriorityStr
  | 1 => some .low
  | 2 => some .medium
  | 3 => some .high
  | _ => none

/-- The `stringPriority` computed in `SubTaskScreen.handleSave`:
`priorityMap[taskData.priority as number] || "low"`. -/
def stringPriority (n : Nat) : PriorityStr :=
  (subScreenPriorityLookup n).getD .low

/-- The record lookup of `priorityMap` in `TaskItem`
(`\x7b 1: \x7blabel:"Low",..\x7d, 2: \x7blabel:"Medium",..\x7d, 3: \x7blabel:"High",..\x7d \x7d`),
keeping only the label. -/
def taskItemPriorityLabelLookup : Nat → Option String
  | 1 => some "Low"
  | 2 => some "Medium"
  | 3 => some "High"
  | _ => none

/-- The displayed priority label in `TaskItem`:
`priorityMap[task.priority] || \x7b label: "Unknown", .. \x7d`. -/
def taskItemPriorityLabel (n : Nat) : String :=
  (taskItemPriorityLabelLookup n).getD "Unknown"

/-- JS `String.prototype.toLowerCase()`, modelled character-wise. -/
def strToLower (s : String) : String :=
  ⟨s.data.map Char.toLower⟩

/-- The TS cast of a lowercased label back into the string union in
`TaskFormModal`: parse `"low"/"medium"/"high"`, otherwise `undefined`. -/
def parsePriorityStr (s : String) : Option PriorityStr :=
  if s = "low" then some .low
  else if s = "medium" then some .medium
  else if s = "high" then some .high
  else none

/-- The initial picker value computed by `TaskFormModal` from a numeric
priority: `priorityMap[initialData.priority]?.label.toLowerCase()`, falling
back to `low` when the lookup or cast fails (and the source also uses
`low` when `initialData.priority` is falsy). -/
def formPriorityFromNumeric (n : Nat) : PriorityStr :=
  (((taskItemPriorityLabelLookup n).map strToLower).bind parsePriorityStr).getD .low

/-- The `Task` entity of `APIClient.ts`, restricted to the fields the
verified claims mention.  Optional fields model the optional (`?`) fields
of the TS interface. -/
structure Task where
  id : Nat
  title : String
  priority : Nat
  completed : Bool
  created_at : String
  parent_task_id : Option Nat
  depth : Option Nat
  is_subtask : Option Bool
deriving DecidableEq, Repr

/-- The JSON body assembled by `APIClient.createTask`: `title` and the
numeric `priority` always; `parent_task_id` and `depth` are fields of the
object only when the corresponding argument is truthy
(`if (parentTaskId) body.parent_task_id = parentTaskId; if (depth) body.depth = depth`). -/
structure CreateTaskBody where
  title : String
  priority : Nat
  parent_task_id : Option Nat
  depth : Option Nat
deriving DecidableEq, Repr

/-- `APIClient.createTask(title, priority, parentTaskId?, depth?)`:
the body it transmits. -/
def createTaskBody (title : String) (priority : PriorityStr)
    (parentTaskId : Option Nat) (depth : Option Nat) : CreateTaskBody where
  title := title
  priority := createPriorityMap priority
  parent_task_id := if natTruthy parentTaskId then parentTaskId else none
  depth := if natTruthy depth then depth else none

/-- The create branch of `SubTaskScreen.handleSave` for parent `task`:
`APIClient.createTask(taskData.title!, stringPriority, task.id, (task.depth || 0) + 1)`.
The `(task.depth || 0)` is JS truthiness: an absent depth (and depth `0`)
contribute `0`. -/
def subTaskCreateBody (parent : Task) (dataTitle : String) (dataPriority : Nat) :
    CreateTaskBody :=
  createTaskBody dataTitle (stringPriority dataPriority) (some parent.id)
    (some ((parent.depth.getD 0) + 1))

/-- The root-list filter of `TodoScreen.fetchTasks`:
`(response.tasks || []).filter(task => !task.is_subtask)`. -/
def rootFilter (ts : List Task) : List Task :=
  ts.filter (fun t => !(t.is_subtask.getD false))

/-- The body transmitted by `APIClient.resetPassword(token, newPassword)`. -/
structure ResetRequestBody where
  token : String
  new_password : String
deriving DecidableEq, Repr

/-- `validatePassword` of the reset-password screen: fails when the new
password is shorter than 6 characters or differs from its confirmation. -/
def validatePassword (newPassword confirmPassword : String) : Bool :=
  if newPassword.length < 6 then false
  else if newPassword ≠ confirmPassword then false
  else true

/-- `handleResetPassword` of the reset-password screen: when
`validatePassword` fails it returns without any network call (`none`);
otherwise it issues exactly the `resetPassword` request. -/
def handleResetPassword (token newPassword confirmPassword : String) :
    Option ResetRequestBody :=
  if validatePassword newPassword confirmPassword
  then some ⟨token, newPassword⟩
  else none

/-- Claim C5: the string→numeric priority mapping used on create and the
numeric→string mapping used on display/edit are mutually inverse on the
three levels: numeric→string→numeric returns the original number and
string→numeric→string returns the original string, both for the edit map
of `SubTaskScreen` and for the lowercased label map of `TaskFormModal`. -/
theorem c5_priority_round_trip :
    (createPriorityMap (stringPriority 1) = 1 ∧
     createPriorityMap (stringPriority 2) = 2 ∧
     createPriorityMap (stringPriority 3) = 3) ∧
    (stringPriority (createPriorityMap .low) = .low ∧
     stringPriority (createPriorityMap .medium) = .medium ∧
     stringPriority (createPriorityMap .high) = .high) ∧
    (createPriorityMap (formPriorityFromNumeric 1) = 1 ∧
     createPriorityMap (formPriorityFromNumeric 2) = 2 ∧
     createPriorityMap (formPriorityFromNumeric 3) = 3) := by
  decide

/-- Claim C6: for every flat task collection returned by `listTasks`, the
root-list view contents are exactly the tasks whose `is_subtask` field is
`false` or absent, and when no task id appears twice in the fetched
collection no task appears twice in the view. -/
theorem c6_root_filter (ts : List Task) :
    (∀ t : Task, t ∈ rootFilter ts ↔ t ∈ ts ∧ t.is_subtask.getD false = false) ∧
    ((ts.map Task.id).Nodup → ((rootFilter ts).map Task.id).Nodup) := by
  constructor
  · intro t
    simp [rootFilter, List.mem_filter]
  · intro h
    exact h.sublist ((List.filter_sublist ts).map Task.id)

/-- Claim C6 witness at a concrete two-element fetch. -/
theorem c6_root_filter_witness :
    (⟨1, "a", 1, false, "t0", none, none, none⟩ : Task) ∈
      rootFilter [⟨1, "a", 1, false, "t0", none, none, none⟩,
                  ⟨2, "b", 2, false, "t0", some 1, some 1, some true⟩] ∧
    ((rootFilter [⟨1, "a", 1, false, "t0", none, none, none⟩,
                  ⟨2, "b", 2, false, "t0", some 1, some 1, some true⟩]).map
        Task.id).Nodup :=
  ⟨((c6_root_filter _).1 _).mpr (by decide), (c6_root_filter _).2 (by decide)⟩

/-- Claim C9: the reset request is issued exactly when the new password has
length at least 6 and equals its confirmation; otherwise the failure is
resolved client-side and no request is sent. -/
theorem c9_reset_password_validation (tok np cp : String) :
    (handleResetPassword tok np cp = some ⟨tok, np⟩ ↔ 6 ≤ np.length ∧ np = cp) ∧
    (handleResetPassword tok np cp = none ↔ np.length < 6 ∨ np ≠ cp) := by
  unfold handleResetPassword validatePassword
  split_ifs with h1 h2 <;> simp_all

/-- Claim C9 witness: a 6-character matching password is sent; a short or
mismatched one is not. -/
theorem c9_reset_password_validation_witness :
    handleResetPassword "tkn" "abcdef" "abcdef" = some ⟨"tkn", "abcdef"⟩ ∧
    handleResetPassword "tkn" "abc" "abc" = none ∧
    handleResetPassword "tkn" "abcdef" "abcdeg" = none :=
  ⟨((c9_reset_password_validation "tkn" "abcdef" "abcdef").1).mpr (by decide),
   ((c9_reset_password_validation "tkn" "abc" "abc").2).mpr (by decide),
   ((c9_reset_password_validation "tkn" "abcdef" "abcdeg").2).mpr (by decide)⟩

/-- Claim C10: `createTask` includes `parent_task_id` and `depth` in the
body only when the corresponding argument is truthy; passing `0`
explicitly transmits the same body as omitting the argument. -/
theorem c10_create_task_truthy_fields (title : String) (p : PriorityStr)
    (pid dep : Option Nat) :
    (createTaskBody title p (some 0) dep = createTaskBody title p none dep) ∧
    (createTaskBody title p pid (some 0) = createTaskBody title p pid none) ∧
    ((createTaskBody title p pid dep).parent_task_id ≠ none ↔
      ∃ n, pid = some n ∧ n ≠ 0) ∧
    ((createTaskBody title p pid dep).depth ≠ none ↔
      ∃ n, dep = some n ∧ n ≠ 0) := by
  refine ⟨rfl, rfl, ?_, ?_⟩ <;>
  · cases pid <;> cases dep <;> simp [createTaskBody, natTruthy]

/-- Claim C10 witness: an explicit `parentTaskId = 0`, `depth = 0` call
transmits the same body as a call omitting both. -/
theorem c10_create_task_truthy_fields_witness :
    createTaskBody "Buy milk" .high (some 0) (some 0) =
      createTaskBody "Buy milk" .high none none :=
  ((c10_create_task_truthy_fields "Buy milk" .high (some 0) (some 0)).1).trans
    ((c10_create_task_truthy_fields "Buy milk" .high none (some 0)).2.1)

/-- The `GET /tasks` response shape consumed by `TodoScreen.fetchTasks`
(`response.tasks || []` tolerates an absent `tasks` field). -/
structure TasksResponse where
  tasks : Option (List Task)
deriving DecidableEq, Repr

/-- The state of the root-list screen (`screens/TodoScreen.tsx`) touched by
`fetchTasks`: the in-memory task list and the loading/refreshing flags. -/
structure TodoScreenState where
  tasks : List Task
  loading : Bool
  refreshing : Bool
deriving DecidableEq, Repr

/-- `TodoScreen.fetchTasks`: on success the list is replaced by the root
filter of the fetched collection; on failure only an alert is shown and the
list state is not written; `finally` clears both flags. -/
def fetchTasksStep (result : Except String TasksResponse) (s : TodoScreenState) :
    TodoScreenState :=
  match result with
  | .ok r => { tasks := rootFilter (r.tasks.getD []), loading := false, refreshing := false }
  | .error _ => { tasks := s.tasks, loading := false, refreshing := false }

/-- The `GET /tasks/:id/subtasks` response shape consumed by
`SubTaskScreen.fetchSubtasks`. -/
structure SubTasksResponse where
  success : Bool
  subtasks : Option (List Task)
  error : Option String
deriving DecidableEq, Repr

/-- The state of a subtask screen instance touched by `fetchSubtasks`. -/
structure SubTaskScreenState where
  subtasks : List Task
  loading : Bool
deriving DecidableEq, Repr

/-- `SubTaskScreen.fetchSubtasks`: on `response.success` the list becomes
`response.subtasks || []`; on a non-success response or a thrown error the
list is set to `[]` (`setSubtasks([])` in both failure branches);
`finally` clears the loading flag. -/
def fetchSubtasksStep (result : Except String SubTasksResponse)
    (_s : SubTaskScreenState) : SubTaskScreenState :=
  match result with
  | .ok r =>
      if r.success then { subtasks := r.subtasks.getD [], loading := false }
      else { subtasks := ([] : List Task), loading := false }
  | .error _ => { subtasks := ([] : List Task), loading := false }

/-- Success path of `TodoScreen.handleSave`: the mutation succeeded and the
screen then awaits `fetchTasks()`, whose result replaces the list. -/
def todoHandleSaveSuccess (refetched : TasksResponse) (s : TodoScreenState) :
    TodoScreenState :=
  fetchTasksStep (.ok refetched) s

/-- Success path of `TodoScreen.handleDelete` after the confirm dialog:
`deleteTask` then `fetchTasks()`. -/
def todoHandleDeleteSuccess (refetched : TasksResponse) (s : TodoScreenState) :
    TodoScreenState :=
  fetchTasksStep (.ok refetched) s

/-- Success path of `TodoScreen.handleComplete`: `completeTask` then
`fetchTasks()`. -/
def todoHandleCompleteSuccess (refetched : TasksResponse) (s : TodoScreenState) :
    TodoScreenState :=
  fetchTasksStep (.ok refetched) s

/-- Success path of `SubTaskScreen.handleSave` (create or update branch):
the mutation succeeded and the screen awaits `fetchSubtasks()`. -/
def subHandleSaveSuccess (refetched : SubTasksResponse) (s : SubTaskScreenState) :
    SubTaskScreenState :=
  fetchSubtasksStep (.ok refetched) s

/-- Success path of `SubTaskScreen.handleDelete`. -/
def subHandleDeleteSuccess (refetched : SubTasksResponse) (s : SubTaskScreenState) :
    SubTaskScreenState :=
  fetchSubtasksStep (.ok refetched) s

/-- Success path of `SubTaskScreen.handleComplete`. -/
def subHandleCompleteSuccess (refetched : SubTasksResponse) (s : SubTaskScreenState) :
    SubTaskScreenState :=
  fetchSubtasksStep (.ok refetched) s

/-- The `Task` type of the legacy single-file screen `src/app/(tabs)/index.tsx`
(string priority, optional description, no hierarchy fields). -/
structure IdxTask where
  id : Nat
  title : String
  description : Option String
  priority : PriorityStr
  completed : Bool
  created_at : String
deriving DecidableEq, Repr

/-- `handleCreateTask` of `index.tsx` after `createTask` succeeds:
`setTasks([response.task, ...tasks])` — the created task is inserted at the
front of the previous local list; no refetch occurs. -/
def idxHandleCreateTaskSuccess (responseTask : IdxTask) (tasks : List IdxTask) :
    List IdxTask :=
  responseTask :: tasks

/-- `handleUpdateTask` of `index.tsx` after `updateTask` succeeds:
the previous local list is mapped, substituting the response task at the
edited id; no refetch occurs. -/
def idxHandleUpdateTaskSuccess (editingId : Nat) (responseTask : IdxTask)
    (tasks : List IdxTask) : List IdxTask :=
  tasks.map fun t => if t.id = editingId then responseTask else t

/-- `handleCompleteTask` of `index.tsx` after `completeTask` succeeds:
the previous local list is mapped, flipping `completed` to `true` at the
given id; no refetch occurs. -/
def idxHandleCompleteTaskSuccess (taskId : Nat) (tasks : List IdxTask) :
    List IdxTask :=
  tasks.map fun t => if t.id = taskId then { t with completed := true } else t

/-- `handleDeleteTask` of `index.tsx` after the confirm dialog and a
successful `deleteTask`: the task is filtered out of the previous local
list; no refetch occurs. -/
def idxHandleDeleteTaskSuccess (taskId : Nat) (tasks : List IdxTask) :
    List IdxTask :=
  tasks.filter fun t => t.id ≠ taskId

/-- Claim C1 counterexample: `handleCreateTask` of `index.tsx` (cited by the
claim) patches the local list in place instead of refetching.  Two runs
with the identical created-task response but different prior local lists
end with different lists — impossible if the list were replaced by a
refetched server collection — and the created task is locally inserted at
the front of the stale list. -/
theorem c1_counterexample :
    idxHandleCreateTaskSuccess ⟨2, "new", none, .high, false, "t1"⟩
        [⟨1, "old", none, .low, false, "t0"⟩] =
      [⟨2, "new", none, .high, false, "t1"⟩, ⟨1, "old", none, .low, false, "t0"⟩] ∧
    idxHandleCreateTaskSuccess ⟨2, "new", none, .high, false, "t1"⟩ [] =
      [⟨2, "new", none, .high, false, "t1"⟩] ∧
    idxHandleCreateTaskSuccess ⟨2, "new", none, .high, false, "t1"⟩
        [⟨1, "old", none, .low, false, "t0"⟩] ≠
      idxHandleCreateTaskSuccess ⟨2, "new", none, .high, false, "t1"⟩ [] := by
  decide

/-- Claim C1 amended: the controllers in `screens/TodoScreen.tsx` and
`screens/SubTaskScreen.tsx` refetch after every successful mutation and
replace their list with the fetched result, independently of the prior
local list; but the legacy root screen `index.tsx` patches its local list
in place: it prepends the created task, substitutes the updated task,
flips the completed flag and removes the deleted task, all computed from
the previous local list without a refetch. -/
theorem c1_amended (refetched : TasksResponse) (s s' : TodoScreenState)
    (sub : SubTasksResponse) (u u' : SubTaskScreenState)
    (rt : IdxTask) (eid did cid : Nat) (ts : List IdxTask) :
    (todoHandleSaveSuccess refetched s =
       ⟨rootFilter (refetched.tasks.getD []), false, false⟩ ∧
     todoHandleDeleteSuccess refetched s =
       ⟨rootFilter (refetched.tasks.getD []), false, false⟩ ∧
     todoHandleCompleteSuccess refetched s =
       ⟨rootFilter (refetched.tasks.getD []), false, false⟩ ∧
     todoHandleSaveSuccess refetched s = todoHandleSaveSuccess refetched s') ∧
    (subHandleSaveSuccess sub u =
       ⟨if sub.success then sub.subtasks.getD [] else [], false⟩ ∧
     subHandleDeleteSuccess sub u =
       ⟨if sub.success then sub.subtasks.getD [] else [], false⟩ ∧
     subHandleCompleteSuccess sub u =
       ⟨if sub.success then sub.subtasks.getD [] else [], false⟩ ∧
     subHandleSaveSuccess sub u = subHandleSaveSuccess sub u') ∧
    (idxHandleCreateTaskSuccess rt ts = rt :: ts ∧
     (∀ t : IdxTask, t ∈ ts → t.id = eid →
        rt ∈ idxHandleUpdateTaskSuccess eid rt ts) ∧
     (∀ t : IdxTask, t ∈ ts → t.id ≠ eid →
        t ∈ idxHandleUpdateTaskSuccess eid rt ts) ∧
     (∀ t : IdxTask, t ∈ idxHandleDeleteTaskSuccess did ts ↔ t ∈ ts ∧ t.id ≠ did) ∧
     (∀ t : IdxTask, t ∈ ts → t.id = cid →
        { t with completed := true } ∈ idxHandleCompleteTaskSuccess cid ts)) := by
  refine ⟨⟨rfl, rfl, rfl, rfl⟩, ⟨?_, ?_, ?_, ?_⟩, rfl, ?_, ?_, ?_, ?_⟩
  · simp only [subHandleSaveSuccess, fetchSubtasksStep]
    split <;> rfl
  · simp only [subHandleDeleteSuccess, fetchSubtasksStep]
    split <;> rfl
  · simp only [subHandleCompleteSuccess, fetchSubtasksStep]
    split <;> rfl
  · rfl
  · intro t ht hid
    simp only [idxHandleUpdateTaskSuccess, List.mem_map]
    exact ⟨t, ht, by rw [if_pos hid]⟩
  · intro t ht hne
    simp only [idxHandleUpdateTaskSuccess, List.mem_map]
    exact ⟨t, ht, by rw [if_neg hne]⟩
  · intro t
    simp [idxHandleDeleteTaskSuccess, List.mem_filter]
  · intro t ht hid
    simp only [idxHandleCompleteTaskSuccess, List.mem_map]
    exact ⟨t, ht, by rw [if_pos hid]⟩

/-- Claim C1 amended, witness at concrete inputs: a successful complete on
the root screen replaces the list with the refetched root filter, the
legacy screen update handler substitutes the response task for the edited
one, and the legacy screen delete handler removes the task from the old
local list. -/
theorem c1_amended_witness :
    todoHandleCompleteSuccess
        ⟨some [⟨1, "a", 1, true, "t0", none, none, none⟩]⟩
        ⟨[], true, true⟩ =
      ⟨[⟨1, "a", 1, true, "t0", none, none, none⟩], false, false⟩ ∧
    (⟨1, "edited", none, .high, false, "t1"⟩ : IdxTask) ∈
      idxHandleUpdateTaskSuccess 1 ⟨1, "edited", none, .high, false, "t1"⟩
        [⟨1, "old", none, .low, false, "t0"⟩] ∧
    (⟨1, "old", none, .low, false, "t0"⟩ : IdxTask) ∉
      idxHandleDeleteTaskSuccess 1 [⟨1, "old", none, .low, false, "t0"⟩] :=
  have h := c1_amended ⟨some [⟨1, "a", 1, true, "t0", none, none, none⟩]⟩
    ⟨[], true, true⟩ ⟨[], true, true⟩ ⟨true, none, none⟩ ⟨[], true⟩ ⟨[], true⟩
    ⟨1, "edited", none, .high, false, "t1"⟩ 1 1 1
    [⟨1, "old", none, .low, false, "t0"⟩]
  ⟨by rw [h.1.2.2.1]; decide,
   h.2.2.2.1 ⟨1, "old", none, .low, false, "t0"⟩ (by decide) rfl,
   fun hmem => ((h.2.2.2.2.2.1 _).mp hmem).2 rfl⟩

/-- Claim C3 counterexample: after a successful subtask fetch, a failing
refetch does not preserve the previously displayed subtask list — the
subtask screen clears it to empty (`setSubtasks([])` in the catch branch). -/
theorem c3_counterexample :
    (fetchSubtasksStep (.ok ⟨true, some [⟨3, "s", 1, false, "t0", some 1, some 1, some true⟩], none⟩)
        ⟨[], true⟩).subtasks =
      [⟨3, "s", 1, false, "t0", some 1, some 1, some true⟩] ∧
    (fetchSubtasksStep (.error "network down")
        (fetchSubtasksStep
          (.ok ⟨true, some [⟨3, "s", 1, false, "t0", some 1, some 1, some true⟩], none⟩)
          ⟨[], true⟩)).subtasks = [] ∧
    [(⟨3, "s", 1, false, "t0", some 1, some 1, some true⟩ : Task)] ≠ ([] : List Task) := by
  decide

/-- Claim C3 amended: a failing fetch on the root list leaves the
previously displayed tasks unchanged (whether or not a fetch ever
succeeded), but a failing fetch on a subtask list — thrown error or
non-success response — always clears the displayed list to empty, even
when a previous fetch had succeeded. -/
theorem c3_amended (e : String) (s : TodoScreenState) (u : SubTaskScreenState)
    (st : Option (List Task)) (err : Option String) :
    (fetchTasksStep (.error e) s).tasks = s.tasks ∧
    (fetchSubtasksStep (.error e) u).subtasks = [] ∧
    (fetchSubtasksStep (.ok ⟨false, st, err⟩) u).subtasks = [] :=
  ⟨rfl, rfl, rfl⟩

/-- Claim C3 amended, witness at concrete states. -/
theorem c3_amended_witness :
    (fetchTasksStep (.error "boom")
        ⟨[⟨1, "a", 1, false, "t0", none, none, none⟩], false, true⟩).tasks =
      [⟨1, "a", 1, false, "t0", none, none, none⟩] ∧
    (fetchSubtasksStep (.error "boom")
        ⟨[⟨3, "s", 1, false, "t0", some 1, some 1, some true⟩], false⟩).subtasks = [] :=
  have h := c3_amended "boom"
    ⟨[⟨1, "a", 1, false, "t0", none, none, none⟩], false, true⟩
    ⟨[⟨3, "s", 1, false, "t0", some 1, some 1, some true⟩], false⟩ none none
  ⟨h.1, h.2.1⟩

/-- The three server-supplied error fields read by `APIClient.request`
(`data?.error`, `data?.message`, `data?.detail`); each is `none` when the
parsed body is not an object or lacks the field. -/
structure ErrData where
  error : Option String
  message : Option String
  detail : Option String
deriving DecidableEq, Repr

/-- Outcome of `JSON.parse(text)` for a non-empty body: either a value
(viewed through the three field reads) or a thrown parse error. -/
inductive ParseOutcome
  | value (d : ErrData)
  | thrown (e : String)
deriving DecidableEq, Repr

/-- A fetch `Response` as consumed by `APIClient.request`: status flag,
numeric status, `statusText`, the body text, and what `JSON.parse` does on
that text. -/
structure HttpResponse where
  ok : Bool
  status : Nat
  statusText : String
  text : String
  parse : ParseOutcome
deriving DecidableEq, Repr

/-- The chain `data?.error || data?.message || data?.detail || response.statusText`
of `APIClient.request` (empty strings are falsy and fall through). -/
def errorChain (d : ErrData) (statusText : String) : String :=
  (jsOrS d.error (jsOrS d.message (jsOrS d.detail none))).getD statusText

/-- The `try` block of `APIClient.request` applied to a response:
`const data = text ? JSON.parse(text) : null`, then on `!response.ok`
`throw new Error(errorMessage || "HTTP <status>")`; on success return the
parsed data (`none` models the `null` of an empty body). -/
def tryBlockResult (r : HttpResponse) : Except String (Option ErrData) :=
  if r.text = "" then
    if r.ok then .ok none
    else .error (jsOrStr r.statusText ("HTTP " ++ toString r.status))
  else
    match r.parse with
    | .thrown e => .error e
    | .value d =>
        if r.ok then .ok (some d)
        else .error (jsOrStr (errorChain d r.statusText) ("HTTP " ++ toString r.status))

/-- What `fetch` produced: a rejection (network exception with message) or
a response. -/
inductive FetchOutcome
  | networkError (e : String)
  | response (r : HttpResponse)
deriving DecidableEq, Repr

/-- `APIClient.request`: the whole `try`/`catch` — every failure is
rethrown as `new Error(error.message || "Network error - check your connection")`. -/
def request (o : FetchOutcome) : Except String (Option ErrData) :=
  match o with
  | .networkError e => .error (jsOrStr e "Network error - check your connection")
  | .response r =>
      match tryBlockResult r with
      | .ok d => .ok d
      | .error e => .error (jsOrStr e "Network error - check your connection")

/-- A JS `||` of strings keeps a non-empty left operand. -/
theorem jsOrStr_of_ne (a b : String) (h : a ≠ "") : jsOrStr a b = a := by
  simp [jsOrStr, h]

/-- A JS `||` of strings is non-empty when its right operand is. -/
theorem jsOrStr_ne_empty (a b : String) (hb : b ≠ "") : jsOrStr a b ≠ "" := by
  unfold jsOrStr
  split_ifs with h
  · exact hb
  · exact h

/-- The `HTTP <status>` fallback string is never empty. -/
theorem http_fallback_ne (n : Nat) : "HTTP " ++ toString n ≠ "" := by
  intro h
  have hlen := congrArg String.length h
  rw [String.length_append] at hlen
  have h5 : "HTTP ".length = 5 := rfl
  have h0 : ("" : String).length = 0 := rfl
  omega

/-- On a non-OK response with a parseable non-empty body, the error message
is the field chain with the `HTTP <status>` fallback. -/
theorem request_error_of (r : HttpResponse) (d : ErrData)
    (hok : r.ok = false) (htext : r.text ≠ "") (hparse : r.parse = .value d) :
    request (.response r) =
      .error (jsOrStr (errorChain d r.statusText) ("HTTP " ++ toString r.status)) := by
  have hmsg :
      tryBlockResult r =
        .error (jsOrStr (errorChain d r.statusText) ("HTTP " ++ toString r.status)) := by
    simp [tryBlockResult, htext, hparse, hok]
  have hne :
      jsOrStr (errorChain d r.statusText) ("HTTP " ++ toString r.status) ≠ "" :=
    jsOrStr_ne_empty _ _ (http_fallback_ne r.status)
  simp [request, hmsg, jsOrStr_of_ne _ _ hne]

/-- Claim C2 counterexample: for a failing response whose JSON body is an
array (so `error`/`message`/`detail` are all absent), the produced message
is the HTTP `statusText`, not the raw response body text as the precedence of the claim
requires. -/
theorem c2_counterexample :
    request (.response ⟨false, 500, "Internal Server Error", "[1,2]",
        .value ⟨none, none, none⟩⟩) =
      .error "Internal Server Error" ∧
    "Internal Server Error" ≠ "[1,2]" := by
  constructor
  · exact (request_error_of ⟨false, 500, "Internal Server Error", "[1,2]",
        .value ⟨none, none, none⟩⟩ ⟨none, none, none⟩ rfl (by decide) rfl).trans
      (congrArg Except.error (by decide))
  · decide

/-- Claim C2 amended: for a failing request with a parseable non-empty
body, the message precedence is the server `error` field, else `message`,
else `detail`, else the HTTP `statusText`, else `HTTP <status>`; the raw
response body text is never used.  (the message of a network exception
passes through, with the generic network-error fallback only when that
message is empty.) -/
theorem c2_amended (r : HttpResponse) (d : ErrData)
    (hok : r.ok = false) (htext : r.text ≠ "") (hparse : r.parse = .value d) :
    (∀ e, d.error = some e → e ≠ "" → request (.response r) = .error e) ∧
    (d.error.getD "" = "" → ∀ m, d.message = some m → m ≠ "" →
       request (.response r) = .error m) ∧
    (d.error.getD "" = "" → d.message.getD "" = "" →
       ∀ dt, d.detail = some dt → dt ≠ "" →
       request (.response r) = .error dt) ∧
    (d.error.getD "" = "" → d.message.getD "" = "" → d.detail.getD "" = "" →
       r.statusText ≠ "" → request (.response r) = .error r.statusText) ∧
    (d.error.getD "" = "" → d.message.getD "" = "" → d.detail.getD "" = "" →
       r.statusText = "" →
       request (.response r) = .error ("HTTP " ++ toString r.status)) ∧
    (∀ e : String, e ≠ "" → request (.networkError e) = .error e) ∧
    (request (.networkError "") =
       .error "Network error - check your connection") := by
  have base := request_error_of r d hok htext hparse
  refine ⟨?_, ?_, ?_, ?_, ?_, ?_, ?_⟩
  · intro e he hne
    rw [base]
    simp [errorChain, jsOrS, he, hne, jsOrStr]
  · intro h0 m hm hne
    rw [base]
    cases herr : d.error with
    | none => simp [errorChain, jsOrS, herr, hm, hne, jsOrStr]
    | some a =>
        rw [herr] at h0
        simp only [Option.getD_some] at h0
        subst h0
        simp [errorChain, jsOrS, herr, hm, hne, jsOrStr]
  · intro h0 h1 dt hdt hne
    rw [base]
    cases herr : d.error with
    | none =>
        cases hmsg : d.message with
        | none => simp [errorChain, jsOrS, herr, hmsg, hdt, hne, jsOrStr]
        | some b =>
            rw [hmsg] at h1
            simp only [Option.getD_some] at h1
            subst h1
            simp [errorChain, jsOrS, herr, hmsg, hdt, hne, jsOrStr]
    | some a =>
        rw [herr] at h0
        simp only [Option.getD_some] at h0
        subst h0
        cases hmsg : d.message with
        | none => simp [errorChain, jsOrS, herr, hmsg, hdt, hne, jsOrStr]
        | some b =>
            rw [hmsg] at h1
            simp only [Option.getD_some] at h1
            subst h1
            simp [errorChain, jsOrS, herr, hmsg, hdt, hne, jsOrStr]
  · intro h0 h1 h2 hne
    rw [base]
    have hchain : errorChain d r.statusText = r.statusText := by
      cases herr : d.error <;> cases hmsg : d.message <;> cases hdt : d.detail <;>
        simp_all [errorChain, jsOrS]
    rw [hchain]
    simp [jsOrStr, hne]
  · intro h0 h1 h2 hst
    rw [base]
    have hchain : errorChain d r.statusText = r.statusText := by
      cases herr : d.error <;> cases hmsg : d.message <;> cases hdt : d.detail <;>
        simp_all [errorChain, jsOrS]
    rw [hchain, hst]
    simp [jsOrStr]
  · intro e hne
    simp [request, jsOrStr_of_ne _ _ hne]
  · simp [request, jsOrStr]

/-- Claim C2 amended, witness: a failing response carrying a `message`
field produces exactly that message; a network exception message passes
through unchanged; an empty exception message yields the generic fallback. -/
theorem c2_amended_witness :
    request (.response ⟨false, 400, "Bad Request", "x",
        .value ⟨none, some "title required", none⟩⟩) =
      .error "title required" ∧
    request (.networkError "Network request failed") =
      .error "Network request failed" ∧
    request (.networkError "") =
      .error "Network error - check your connection" :=
  have h := c2_amended ⟨false, 400, "Bad Request", "x",
        .value ⟨none, some "title required", none⟩⟩
      ⟨none, some "title required", none⟩ rfl (by decide) rfl
  ⟨h.2.1 rfl "title required" rfl (by decide),
   h.2.2.2.2.2.1 "Network request failed" (by decide),
   h.2.2.2.2.2.2⟩

/-- JS falsiness of an optional string (`null`/`undefined` and `""`). -/
def jsFalsyS : Option String → Bool
  | none => true
  | some t => t == ""

/-- The credential state of `APIClient`: the in-memory static `token`
field and the value stored under the `"token"` key in AsyncStorage. -/
structure ClientState where
  token : Option String
  storage : Option String
deriving DecidableEq, Repr

/-- `APIClient.getToken`: `if (!this.token) \x7b this.token = await
AsyncStorage.getItem("token") \x7d; return this.token` — returns the
resolved token and the (possibly cache-filled) state. -/
def getToken (s : ClientState) : Option String × ClientState :=
  if jsFalsyS s.token then (s.storage, { s with token := s.storage })
  else (s.token, s)

/-- `APIClient.setToken`: writes the in-memory field and AsyncStorage. -/
def setToken (t : String) (_s : ClientState) : ClientState :=
  { token := some t, storage := some t }

/-- The `Authorization` header attached by `APIClient.request`:
`...(token ? \x7b Authorization: Bearer <token> \x7d : \x7b\x7d)` after
resolving the token through `getToken`. -/
def requestAuthHeader (s : ClientState) : Option String :=
  match (getToken s).1 with
  | none => none
  | some t => if t = "" then none else some ("Bearer " ++ t)

/-- The `/auth/login` response shape used by `APIClient.login`. -/
structure LoginResult where
  token : Option String
deriving DecidableEq, Repr

/-- The tail of `APIClient.login` after the request resolves:
`if (result.token) this.setToken(result.token)` — the credential is
installed before `login` returns. -/
def loginStep (result : LoginResult) (s : ClientState) : ClientState :=
  match result.token with
  | some t => if t = "" then s else setToken t s
  | none => s

/-- Claim C7: when login succeeds with a (truthy) token in the response,
the token is installed before login returns, so the very next request
carries `Authorization: Bearer <token>` — from any prior credential state. -/
theorem c7_login_installs_token (s : ClientState) (res : LoginResult) (t : String)
    (htok : res.token = some t) (hne : t ≠ "") :
    requestAuthHeader (loginStep res s) = some ("Bearer " ++ t) := by
  simp [loginStep, htok, hne, setToken, requestAuthHeader, getToken, jsFalsyS]

/-- Claim C7 witness: a fresh client logging in with token `"tok123"`
sends `Authorization: Bearer tok123` on the next request. -/
theorem c7_login_installs_token_witness :
    requestAuthHeader (loginStep ⟨some "tok123"⟩ ⟨none, none⟩) =
      some ("Bearer " ++ "tok123") :=
  c7_login_installs_token ⟨none, none⟩ ⟨some "tok123"⟩ "tok123" rfl (by decide)

/-- Claim C4: a subtask-creation request issued from the subtask screen of
parent `P` (whose id is a truthy server-assigned integer and whose depth
is present) carries `parent_task_id = P.id` and `depth = P.depth + 1` in
its body. -/
theorem c4_subtask_create_request (parent : Task) (dataTitle : String)
    (dataPriority : Nat) (d : Nat)
    (hid : parent.id ≠ 0) (hdepth : parent.depth = some d) :
    (subTaskCreateBody parent dataTitle dataPriority).parent_task_id =
      some parent.id ∧
    (subTaskCreateBody parent dataTitle dataPriority).depth = some (d + 1) := by
  constructor <;>
    simp [subTaskCreateBody, createTaskBody, natTruthy, hid, hdepth]

/-- Claim C4 witness: adding a subtask under a parent with id 5 and depth 1
transmits `parent_task_id = 5` and `depth = 2`. -/
theorem c4_subtask_create_request_witness :
    (subTaskCreateBody ⟨5, "parent", 2, false, "t0", none, some 1, none⟩
        "child" 3).parent_task_id = some 5 ∧
    (subTaskCreateBody ⟨5, "parent", 2, false, "t0", none, some 1, none⟩
        "child" 3).depth = some 2 :=
  c4_subtask_create_request ⟨5, "parent", 2, false, "t0", none, some 1, none⟩
    "child" 3 1 (by decide) rfl

/-- The three action buttons rendered by `TaskItem`: the completion control
(labelled `Undo` when the task is completed, `Done` otherwise) always fires
`onComplete(task.id)`; the others fire `onUpdate(task)` and
`onDelete(task.id)`. -/
inductive TaskItemMsg
  | completeMsg (id : Nat)
  | updateMsg (t : Task)
  | deleteMsg (id : Nat)
deriving DecidableEq, Repr

/-- The label/action pairs of the `TaskItem` action column, in render order. -/
def taskItemButtons (t : Task) : List (String × TaskItemMsg) :=
  [(if t.completed then "Undo" else "Done", .completeMsg t.id),
   ("Edit", .updateMsg t),
   ("Delete", .deleteMsg t.id)]

/-- The update payload transmitted for a task: the optional fields of
`Partial<Task>` that the edit form of the client can populate. -/
structure TaskUpdates where
  title : Option String
  priorityStr : Option PriorityStr
  completed : Option Bool
deriving DecidableEq, Repr

/-- `TaskFormModal.handleSave`: trims the title, returns without saving on
an empty or over-long title, and otherwise calls
`onSave(\x7b title: trimmedTitle, priority \x7d)` — no `completed` field is
ever part of the payload. -/
def taskFormSavePayload (title : String) (priority : PriorityStr) :
    Option TaskUpdates :=
  if title.trim = "" then none
  else if 100 < title.trim.length then none
  else some ⟨some title.trim, some priority, none⟩

/-- Modelled from the spec: the server `POST /tasks/:id/complete`
endpoint is not part of this repository (the client is the whole source);
§4.1 specifies it as an "idempotent state transition to `completed = true`"
that accepts repeated calls without error.  The task store is a flat list
and the endpoint sets the flag of the addressed task. -/
def serverCompleteTask (tasks : List Task) (taskId : Nat) : List Task :=
  tasks.map fun t => if t.id = taskId then { t with completed := true } else t

/-- Claim C8: the completion control of `TaskItem` — including the one
rendered for an already-completed task (labelled `Undo`) — always invokes
`completeTask(task.id)`; the update payload of the edit form never carries a
`completed` value, so the client exposes no operation reverting
`completed` to false; and completing twice in a row is idempotent and
leaves the task completed. -/
theorem c8_complete_one_way (t : Task) (title : String) (p : PriorityStr)
    (tasks : List Task) (taskId : Nat) :
    ((if t.completed then "Undo" else "Done", TaskItemMsg.completeMsg t.id) ∈
       taskItemButtons t) ∧
    (∀ lbl m, (lbl, m) ∈ taskItemButtons t → (∃ i, m = .completeMsg i) →
       m = .completeMsg t.id) ∧
    (∀ u, taskFormSavePayload title p = some u → u.completed = none) ∧
    (serverCompleteTask (serverCompleteTask tasks taskId) taskId =
       serverCompleteTask tasks taskId) ∧
    (∀ u ∈ serverCompleteTask tasks taskId, u.id = taskId → u.completed = true) := by
  refine ⟨?_, ?_, ?_, ?_, ?_⟩
  · simp [taskItemButtons]
  · intro lbl m hm hi
    obtain ⟨i, hi⟩ := hi
    subst hi
    simp [taskItemButtons] at hm
    rw [hm.2]
  · intro u hu
    unfold taskFormSavePayload at hu
    split_ifs at hu
    cases hu
    rfl
  · induction tasks with
    | nil => rfl
    | cons hd tl ih =>
        by_cases h : hd.id = taskId <;>
          simp_all [serverCompleteTask, h]
  · intro u hu hid
    obtain ⟨v, hv, heq⟩ := List.mem_map.mp hu
    by_cases h : v.id = taskId
    · rw [if_pos h] at heq
      subst heq
      rfl
    · rw [if_neg h] at heq
      subst heq
      exact absurd hid h

/-- Claim C8 witness: the `Undo` control of a completed task with id 9
still fires `completeTask(9)`, and completing task 9 twice equals
completing it once with the task left completed. -/
theorem c8_complete_one_way_witness :
    ("Undo", TaskItemMsg.completeMsg 9) ∈
      taskItemButtons ⟨9, "a", 1, true, "t0", none, none, none⟩ ∧
    serverCompleteTask
        (serverCompleteTask [⟨9, "a", 1, false, "t0", none, none, none⟩] 9) 9 =
      serverCompleteTask [⟨9, "a", 1, false, "t0", none, none, none⟩] 9 ∧
    (⟨9, "a", 1, true, "t0", none, none, none⟩ : Task).completed = true :=
  have h := c8_complete_one_way ⟨9, "a", 1, true, "t0", none, none, none⟩ "x" .low
    [⟨9, "a", 1, false, "t0", none, none, none⟩] 9
  ⟨h.1, h.2.2.2.1,
   h.2.2.2.2 ⟨9, "a", 1, true, "t0", none, none, none⟩ (by decide) rfl⟩

end TodoApp
